import Mathlib

/-
  Shallow embedding of the live-chat handover core of the server-go
  repository: session state machine, message pipeline, AI-engine helpers
  (sentiment, knowledge retrieval), agent presence registry and the
  inactivity reaper.  Go strings are modelled as `String` (compared with
  decidable equality) or as `List Char` where Go performs `strings.ToLower`
  and `strings.Contains`; timestamps are modelled as `Int`; the Firestore
  document store is modelled as explicit in-memory state.
-/

namespace ServerGo

/-- Lowercasing of a Go string (`strings.ToLower`), modelled character-wise;
the phrase lists under verification are ASCII. -/
def lowerStr (s : List Char) : List Char := s.map Char.toLower

/-- Whether the second list is a prefix of the first (`hay` starts with `needle`). -/
def listStartsWith : List Char → List Char → Bool
  | _, [] => true
  | [], _ :: _ => false
  | a :: as, b :: bs => a == b && listStartsWith as bs

/-- Go `strings.Contains hay needle`: `needle` occurs as a contiguous substring. -/
def listContainsSub : List Char → List Char → Bool
  | [], needle => needle.isEmpty
  | c :: t, needle => listStartsWith (c :: t) needle || listContainsSub t needle

/-- Frustrated/angry indicator phrases from `analyzeSentiment`. -/
def frustratedWords : List (List Char) :=
  ["tidak membantu".toList, "payah".toList, "lambat".toList, "bingung".toList,
   "kesel".toList, "marah".toList, "kecewa".toList, "buruk".toList,
   "jelek".toList, "lama sekali".toList, "susah".toList, "ribet".toList,
   "bodoh".toList, "tolol".toList, "goblok".toList, "bangsat".toList,
   "anjing".toList, "babi".toList]

/-- Positive indicator phrases from `analyzeSentiment`. -/
def positiveWords : List (List Char) :=
  ["terima kasih".toList, "makasih".toList, "bagus".toList, "hebat".toList,
   "mantap".toList, "keren".toList, "membantu".toList, "jelas".toList,
   "paham".toList, "mengerti".toList, "terbantu".toList, "baik".toList]

/-- ChatEngine.analyzeSentiment: lowercases the message, scans the
frustrated list in full (returning on the first hit), then the positive
list, defaulting to neutral.  Because every hit in one list returns the
same label, the first-match loop is the same function as `List.any`. -/
def analyzeSentiment (message : List Char) : String :=
  let m := lowerStr message
  if frustratedWords.any (fun w => listContainsSub m w) then "frustrated"
  else if positiveWords.any (fun w => listContainsSub m w) then "positive"
  else "neutral"

/-- KnowledgeItem: static FAQ-style record. -/
structure KnowledgeItem where
  topic : String
  question : String
  answer : String
  keywords : List (List Char)
deriving DecidableEq, Repr

/-- Whether a knowledge item matches the (already lowercased) message:
some keyword, lowercased, is a substring of it. -/
def itemMatches (m : List Char) (item : KnowledgeItem) : Bool :=
  item.keywords.any (fun kw => listContainsSub m (lowerStr kw))

/-- ChatEngine.findRelevantKnowledge: lowercases the message, keeps every
item one of whose keywords is a substring of it (the Go loop breaks on the
first matching keyword of an item, which is `List.any`), then truncates to
the first 3 when more matched. -/
def findRelevantKnowledge (kb : List KnowledgeItem) (message : List Char) :
    List KnowledgeItem :=
  let m := lowerStr message
  let relevant := kb.filter (itemMatches m)
  if relevant.length > 3 then relevant.take 3 else relevant

/-- SessionStatus: the four states of a chat session. -/
inductive SessionStatus where
  | bot
  | queued
  | live
  | closed
deriving DecidableEq, Repr

/-- ChatSession: one per visitor conversation.  The Go struct also carries a
float-free mirror here; `FailedAttempts` is a non-negative counter (only ever
incremented or reset to 0), timestamps are `Int`. -/
structure ChatSession where
  id : String
  visitorId : String
  visitorName : String
  visitorEmail : String
  visitorPhone : String
  status : SessionStatus
  assignedAdmin : String
  currentPage : String
  aiSummary : String
  sentiment : String
  failedAttempts : Nat
  lastMessageAt : Int
  createdAt : Int
  location : String
  closedAt : Option Int
deriving DecidableEq, Repr

/-- ChatMessage: one per turn. -/
structure ChatMessage where
  sessionId : String
  sender : String
  content : String
  timestamp : Int
deriving DecidableEq, Repr

/-- GroqMessage: role-tagged history entry sent to the AI transport. -/
structure GroqMessage where
  role : String
  content : String
deriving DecidableEq, Repr

/-- ChatResponse: value object returned by the engine / pipeline.  The Go
struct also has a float64 `Confidence` placeholder (a fixed constant), which
is not modelled. -/
structure ChatResponse where
  reply : String
  suggestHandover : Bool
  sentiment : String
deriving DecidableEq, Repr

/-- The document-store state relevant to one session: its session document
and the messages collection. -/
structure StoreState where
  session : ChatSession
  msgs : List ChatMessage
deriving DecidableEq, Repr

/-- SessionManager.UpdateSession: full overwrite of the session document. -/
def updateSession (st : StoreState) (s : ChatSession) : StoreState :=
  ⟨s, st.msgs⟩

/-- SessionManager.SaveMessage: appends the message and, as a secondary
write, sets the session document field `lastMessageAt` to the message's
timestamp. -/
def saveMessage (st : StoreState) (m : ChatMessage) : StoreState :=
  ⟨{ st.session with lastMessageAt := m.timestamp }, st.msgs ++ [m]⟩

/-- SessionManager.CreateSession: fresh session with status `bot`,
neutral sentiment and zero failures; `genId` stands for the id the store
generates for the new document. -/
def createSession (genId visitorID visitorName visitorEmail visitorPhone currentPage location : String) (now : Int) : ChatSession :=
  { id := genId
    visitorId := visitorID
    visitorName := visitorName
    visitorEmail := visitorEmail
    visitorPhone := visitorPhone
    status := SessionStatus.bot
    assignedAdmin := ""
    currentPage := currentPage
    aiSummary := ""
    sentiment := "neutral"
    failedAttempts := 0
    lastMessageAt := now
    createdAt := now
    location := location
    closedAt := none }

/-- SessionManager.RequestHandover: sets status queued (no guard on the
current status), persists, appends a system message. -/
def requestHandover (now : Int) (st : StoreState) : StoreState :=
  saveMessage (updateSession st { st.session with status := SessionStatus.queued })
    ⟨st.session.id, "system", "Pengunjung meminta untuk dihubungkan dengan admin.", now⟩

/-- SessionManager.ClaimSession: sets status live and the assigned admin
(no guard on the current status), persists, appends a system message. -/
def claimSession (adminID adminName : String) (now : Int) (st : StoreState) : StoreState :=
  saveMessage
    (updateSession st
      { st.session with status := SessionStatus.live, assignedAdmin := adminID })
    ⟨st.session.id, "system", adminName ++ " telah bergabung ke chat.", now⟩

/-- SessionManager.CloseSession: sets status closed and stamps closedAt;
the assigned admin is left as it was, and no system message is written. -/
def closeSession (now : Int) (st : StoreState) : StoreState :=
  updateSession st
    { st.session with status := SessionStatus.closed, closedAt := some now }

/-- SessionManager.ReturnToBot: back to bot mode, clears the assigned
admin, resets the failure counter, appends a system message. -/
def returnToBot (now : Int) (st : StoreState) : StoreState :=
  saveMessage
    (updateSession st
      { st.session with
          status := SessionStatus.bot
          assignedAdmin := ""
          failedAttempts := 0 })
    ⟨st.session.id, "system", "Sesi telah dikembalikan ke AI. Silakan lanjutkan percakapan Anda.", now⟩

/-- Stable insertion of a message into a timestamp-ascending list (a later
message with an equal timestamp stays after earlier ones). -/
def insertByTs (m : ChatMessage) : List ChatMessage → List ChatMessage
  | [] => [m]
  | x :: xs => if m.timestamp < x.timestamp then m :: x :: xs else x :: insertByTs m xs

/-- Timestamp-ascending ordering of the messages collection, modelling the
store's order-by-timestamp. -/
def sortByTs : List ChatMessage → List ChatMessage
  | [] => []
  | x :: xs => insertByTs x (sortByTs xs)

/-- SessionManager.GetMessages: messages of the session, ordered by
timestamp ascending, limited to the FIRST `limit` in that order (the
store's limit applies after the ascending order-by). -/
def getMessages (store : List ChatMessage) (sid : String) (limit : Nat) : List ChatMessage :=
  (sortByTs (store.filter (fun m => m.sessionId == sid))).take limit

/-- Role assigned to a sender when building AI history: `bot` and `admin`
map to assistant, everything else to user. -/
def roleOf (sender : String) : String :=
  if sender = "bot" ∨ sender = "admin" then "assistant" else "user"

/-- The history-building loop of ProcessMessage: role-tag each message and
keep it unless its sender is `system`. -/
def toHistory : List ChatMessage → List GroqMessage
  | [] => []
  | m :: rest =>
    if m.sender ≠ "system" then ⟨roleOf m.sender, m.content⟩ :: toHistory rest
    else toHistory rest

/-- History handed to the AI engine by ProcessMessage: the role-tagged,
system-free image of `getMessages store sid 20`. -/
def buildHistory (sid : String) (store : List ChatMessage) : List GroqMessage :=
  toHistory (getMessages store sid 20)

/-- Canned reply used once the failure counter has reached 2. -/
def handoverResponse : ChatResponse :=
  ⟨"Maaf, saya mengalami kesulitan. Mau saya hubungkan dengan admin kami?", true, "neutral"⟩

/-- Canned reply used on an AI failure while the counter is still below 2. -/
def retryResponse : ChatResponse :=
  ⟨"Maaf, ada sedikit gangguan. Bisa ulangi pertanyaan Anda?", false, "neutral"⟩

/-- SessionManager.ProcessMessage.  `ai` is the ChatEngine call as an
oracle from the visitor text and the built history to `some` response or
`none` on failure; the pipeline swallows the failure (the Go function
returns a nil error on that path).  The final UpdateSession writes the
locally-held session, so the stored `lastMessageAt` ends at its value from
load time. -/
def processMessage (ai : String → List GroqMessage → Option ChatResponse)
    (content : String) (now : Int) (st : StoreState) : StoreState × ChatResponse :=
  let s := st.session
  if s.status = SessionStatus.live then
    (st, ⟨"", false, "neutral"⟩)
  else
    let history := buildHistory s.id st.msgs
    match ai content history with
    | some r =>
      let st2 := saveMessage st ⟨s.id, "bot", r.reply, now⟩
      (updateSession st2 { s with sentiment := r.sentiment }, r)
    | none =>
      let s1 := { s with failedAttempts := s.failedAttempts + 1 }
      let r := if s1.failedAttempts ≥ 2 then handoverResponse else retryResponse
      let st1 := updateSession st s1
      let st2 := saveMessage st1 ⟨s.id, "bot", r.reply, now⟩
      (updateSession st2 { s1 with sentiment := r.sentiment }, r)

/-- The reaper's selection condition: active status and last message
strictly older than now minus the cutoff duration. -/
def reaperSelects (now dur : Int) (s : ChatSession) : Bool :=
  (s.status == SessionStatus.live || s.status == SessionStatus.queued ||
    s.status == SessionStatus.bot) && decide (s.lastMessageAt < now - dur)

/-- The per-session closing update of the reaper. -/
def reaperClose (now : Int) (s : ChatSession) : ChatSession :=
  { s with status := SessionStatus.closed, closedAt := some now, sentiment := "timeout" }

/-- The system message the reaper appends for a closed session. -/
def reaperSysMsg (sid : String) (now : Int) : ChatMessage :=
  ⟨sid, "system",
   "Sesi chat telah berakhir otomatis karena tidak ada aktivitas selama 6 menit.", now⟩

/-- SessionManager.CleanupInactiveSessions over the sessions collection:
each selected session is closed with sentiment `timeout` and a system
message is appended; others are untouched. -/
def cleanupInactiveSessions (now dur : Int) :
    List ChatSession → List ChatMessage → List ChatSession × List ChatMessage
  | [], msgs => ([], msgs)
  | s :: rest, msgs =>
    if reaperSelects now dur s then
      let r := cleanupInactiveSessions now dur rest (msgs ++ [reaperSysMsg s.id now])
      (reaperClose now s :: r.1, r.2)
    else
      let r := cleanupInactiveSessions now dur rest msgs
      (s :: r.1, r.2)

/-- AdminStatus: ephemeral in-memory presence entry. -/
structure AdminStatus where
  adminId : String
  adminName : String
  status : String
  activeChats : Nat
  maxChats : Nat
  lastSeen : Int
deriving DecidableEq, Repr

/-- SessionManager.UpdateAdminStatus on the in-memory registry, modelled
as a keyed list: offline deletes the entry; otherwise an existing entry is
refreshed in place and a new one is created with `maxChats := 5`. -/
def updateAdminStatus (reg : List AdminStatus) (adminID adminName status : String)
    (now : Int) : List AdminStatus :=
  if status = "offline" then
    reg.filter (fun a => !(a.adminId == adminID))
  else if (reg.find? (fun a => a.adminId == adminID)).isSome then
    reg.map (fun a =>
      if a.adminId == adminID then { a with status := status, lastSeen := now } else a)
  else
    reg ++ [⟨adminID, adminName, status, 0, 5, now⟩]

/-- SessionManager.IsAnyAdminOnline: scan for an entry with status online. -/
def isAnyAdminOnline (reg : List AdminStatus) : Bool :=
  reg.any (fun a => a.status == "online")

/-- The transition operations of the session store, for stating invariants
over arbitrary operation sequences. -/
inductive Op where
  | requestHandover (now : Int)
  | claimSession (adminID adminName : String) (now : Int)
  | closeSession (now : Int)
  | returnToBot (now : Int)
  | processMessage (ai : String → List GroqMessage → Option ChatResponse)
      (content : String) (now : Int)
  | reaperSweep (now dur : Int)

/-- State effect of one operation on a session's store state (the reaper
is restricted to this one session's document). -/
def applyOp : Op → StoreState → StoreState
  | Op.requestHandover now, st => requestHandover now st
  | Op.claimSession adminID adminName now, st => claimSession adminID adminName now st
  | Op.closeSession now, st => closeSession now st
  | Op.returnToBot now, st => returnToBot now st
  | Op.processMessage ai content now, st => (processMessage ai content now st).1
  | Op.reaperSweep now dur, st =>
    if reaperSelects now dur st.session then
      ⟨reaperClose now st.session, st.msgs ++ [reaperSysMsg st.session.id now]⟩
    else st

/-- Run a sequence of operations from a starting state. -/
def run (ops : List Op) (st : StoreState) : StoreState :=
  ops.foldl (fun acc op => applyOp op acc) st

/-- Claim C6: sentiment classification is a case-insensitive substring match
where the full frustrated list is scanned before the positive list and the
first match wins: any input containing "kesel" is frustrated; any input
containing "terima kasih" and no frustrated phrase is positive; any input
containing no phrase of either list is neutral; and whenever both a
frustrated and a positive phrase occur, the result is frustrated. -/
theorem analyzeSentiment_spec (msg : List Char) :
    (listContainsSub (lowerStr msg) "kesel".toList = true →
      analyzeSentiment msg = "frustrated") ∧
    (listContainsSub (lowerStr msg) "terima kasih".toList = true →
      (∀ w ∈ frustratedWords, listContainsSub (lowerStr msg) w = false) →
      analyzeSentiment msg = "positive") ∧
    ((∀ w ∈ frustratedWords, listContainsSub (lowerStr msg) w = false) →
      (∀ w ∈ positiveWords, listContainsSub (lowerStr msg) w = false) →
      analyzeSentiment msg = "neutral") ∧
    ((∃ w ∈ frustratedWords, listContainsSub (lowerStr msg) w = true) →
      (∃ w ∈ positiveWords, listContainsSub (lowerStr msg) w = true) →
      analyzeSentiment msg = "frustrated") := by
  refine ⟨?_, ?_, ?_, ?_⟩
  · intro h
    have hk : "kesel".toList ∈ frustratedWords := by decide
    have hf : frustratedWords.any (fun w => listContainsSub (lowerStr msg) w) = true :=
      List.any_eq_true.mpr ⟨"kesel".toList, hk, h⟩
    simp [analyzeSentiment, hf]
  · intro hp hfall
    have hf : frustratedWords.any (fun w => listContainsSub (lowerStr msg) w) = false := by
      rw [List.any_eq_false]
      intro w hw
      simp [hfall w hw]
    have hpos : positiveWords.any (fun w => listContainsSub (lowerStr msg) w) = true := by
      have hk : "terima kasih".toList ∈ positiveWords := by decide
      exact List.any_eq_true.mpr ⟨"terima kasih".toList, hk, hp⟩
    simp [analyzeSentiment, hf, hpos]
  · intro hfall hpall
    have hf : frustratedWords.any (fun w => listContainsSub (lowerStr msg) w) = false := by
      rw [List.any_eq_false]
      intro w hw
      simp [hfall w hw]
    have hpos : positiveWords.any (fun w => listContainsSub (lowerStr msg) w) = false := by
      rw [List.any_eq_false]
      intro w hw
      simp [hpall w hw]
    simp [analyzeSentiment, hf, hpos]
  · intro hfe _
    obtain ⟨w, hw, hcont⟩ := hfe
    have hf : frustratedWords.any (fun w => listContainsSub (lowerStr msg) w) = true :=
      List.any_eq_true.mpr ⟨w, hw, hcont⟩
    simp [analyzeSentiment, hf]

/-- Concrete instances of the four branches of `analyzeSentiment_spec`. -/
theorem analyzeSentiment_spec_wit :
    analyzeSentiment "aku KESEL banget".toList = "frustrated" ∧
    analyzeSentiment "oke terima kasih".toList = "positive" ∧
    analyzeSentiment "halo".toList = "neutral" ∧
    analyzeSentiment "tidak membantu tapi terima kasih".toList = "frustrated" :=
  ⟨(analyzeSentiment_spec "aku KESEL banget".toList).1 (by decide),
   (analyzeSentiment_spec "oke terima kasih".toList).2.1 (by decide) (by decide),
   (analyzeSentiment_spec "halo".toList).2.2.1 (by decide) (by decide),
   (analyzeSentiment_spec "tidak membantu tapi terima kasih".toList).2.2.2
     (by decide) (by decide)⟩

/-- Claim C7: knowledge retrieval returns at most 3 items, each returned
item has at least one keyword that is a case-insensitive substring of the
query, and the result is exactly the first such matches in knowledge-base
iteration order. -/
theorem findRelevantKnowledge_spec (kb : List KnowledgeItem) (message : List Char) :
    (findRelevantKnowledge kb message).length ≤ 3 ∧
    (∀ item ∈ findRelevantKnowledge kb message,
      itemMatches (lowerStr message) item = true) ∧
    findRelevantKnowledge kb message =
      (kb.filter (itemMatches (lowerStr message))).take 3 := by
  have heq : findRelevantKnowledge kb message =
      (kb.filter (itemMatches (lowerStr message))).take 3 := by
    unfold findRelevantKnowledge
    by_cases h : (kb.filter (itemMatches (lowerStr message))).length > 3
    · simp [h]
    · have hle : (kb.filter (itemMatches (lowerStr message))).length ≤ 3 := by omega
      simp [h, List.take_of_length_le hle]
  refine ⟨?_, ?_, heq⟩
  · rw [heq]
    exact List.length_take_le 3 _
  · intro item hitem
    rw [heq] at hitem
    have hmem := List.mem_of_mem_take hitem
    exact (List.mem_filter.mp hmem).2

/-- Knowledge items used to exercise `findRelevantKnowledge_spec`. -/
def kbSample : List KnowledgeItem :=
  [⟨"PT", "q1", "a1", ["pt".toList, "pendirian".toList]⟩,
   ⟨"ISO", "q2", "a2", ["iso".toList]⟩,
   ⟨"NIB", "q3", "a3", ["nib".toList, "pt".toList]⟩,
   ⟨"HAKI", "q4", "a4", ["merek".toList, "pt".toList]⟩,
   ⟨"SBU", "q5", "a5", ["konstruksi".toList]⟩]

/-- Concrete instance of `findRelevantKnowledge_spec`: four items match the
query "Pendirian PT dan ISO" but only the first three are returned. -/
theorem findRelevantKnowledge_spec_wit :
    findRelevantKnowledge kbSample "Pendirian PT dan ISO".toList =
      [⟨"PT", "q1", "a1", ["pt".toList, "pendirian".toList]⟩,
       ⟨"ISO", "q2", "a2", ["iso".toList]⟩,
       ⟨"NIB", "q3", "a3", ["nib".toList, "pt".toList]⟩] ∧
    (findRelevantKnowledge kbSample "Pendirian PT dan ISO".toList).length ≤ 3 ∧
    itemMatches (lowerStr "Pendirian PT dan ISO".toList)
      ⟨"NIB", "q3", "a3", ["nib".toList, "pt".toList]⟩ = true :=
  ⟨((findRelevantKnowledge_spec kbSample "Pendirian PT dan ISO".toList).2.2).trans
     (by decide),
   (findRelevantKnowledge_spec kbSample "Pendirian PT dan ISO".toList).1,
   (findRelevantKnowledge_spec kbSample "Pendirian PT dan ISO".toList).2.1 _
     (by decide)⟩

/-- Unfolding of the pipeline on a live session. -/
lemma processMessage_live (ai : String → List GroqMessage → Option ChatResponse)
    (content : String) (now : Int) (st : StoreState)
    (h : st.session.status = SessionStatus.live) :
    processMessage ai content now st = (st, ⟨"", false, "neutral"⟩) := by
  simp [processMessage, h]

/-- Unfolding of the pipeline when the AI call fails: the counter is
bumped, the canned reply chosen by the counter is returned and saved as a
bot message, and the final session overwrite carries the bumped counter
and neutral sentiment. -/
lemma processMessage_failure (ai : String → List GroqMessage → Option ChatResponse)
    (content : String) (now : Int) (st : StoreState)
    (hl : st.session.status ≠ SessionStatus.live)
    (hf : ai content (buildHistory st.session.id st.msgs) = none) :
    processMessage ai content now st =
      (⟨{ st.session with
            failedAttempts := st.session.failedAttempts + 1
            sentiment := "neutral" },
        st.msgs ++ [⟨st.session.id, "bot",
          (if st.session.failedAttempts + 1 ≥ 2 then handoverResponse
           else retryResponse).reply, now⟩]⟩,
       if st.session.failedAttempts + 1 ≥ 2 then handoverResponse
       else retryResponse) := by
  by_cases h2 : st.session.failedAttempts + 1 ≥ 2 <;>
    simp [processMessage, hl, hf, h2, updateSession, saveMessage,
      handoverResponse, retryResponse]

/-- Unfolding of the pipeline when the AI call succeeds: the counter is
untouched, the reply is saved as a bot message and the sentiment is
refreshed from the response. -/
lemma processMessage_success (ai : String → List GroqMessage → Option ChatResponse)
    (content : String) (now : Int) (st : StoreState) (r : ChatResponse)
    (hl : st.session.status ≠ SessionStatus.live)
    (hs : ai content (buildHistory st.session.id st.msgs) = some r) :
    processMessage ai content now st =
      (⟨{ st.session with sentiment := r.sentiment },
        st.msgs ++ [⟨st.session.id, "bot", r.reply, now⟩]⟩, r) := by
  simp [processMessage, hl, hs, updateSession, saveMessage]

/-- Claim C5: on a live session the pipeline short-circuits to an empty
reply with no handover suggestion, touching neither the session nor the
messages and ignoring the AI oracle entirely. -/
theorem pipeline_live_noop (ai : String → List GroqMessage → Option ChatResponse)
    (content : String) (now : Int) (st : StoreState)
    (h : st.session.status = SessionStatus.live) :
    processMessage ai content now st = (st, ⟨"", false, "neutral"⟩) := by
  simp [processMessage, h]

/-- A base session used by the concrete instances below. -/
def sampleSession : ChatSession :=
  createSession "s1" "v1" "Budi" "budi@mail" "0812" "/layanan" "ID" 0

/-- A store state whose session is live and assigned. -/
def liveSt : StoreState :=
  ⟨{ sampleSession with status := SessionStatus.live, assignedAdmin := "a1" },
   [⟨"s1", "visitor", "halo", 1⟩]⟩

/-- Concrete instance of `pipeline_live_noop`. -/
theorem pipeline_live_noop_wit :
    processMessage (fun _ _ => some ⟨"ai reply", false, "positive"⟩) "halo" 5 liveSt =
      (liveSt, ⟨"", false, "neutral"⟩) :=
  pipeline_live_noop (fun _ _ => some ⟨"ai reply", false, "positive"⟩) "halo" 5 liveSt
    (by decide)

/-- The always-failing AI oracle. -/
def aiFail : String → List GroqMessage → Option ChatResponse := fun _ _ => none

/-- Claim C4: on an AI failure the pipeline swallows the error (it still
produces a full result), increments and persists the failure counter, and
returns the handover-offer canned reply exactly when the counter has
reached 2, the retry-prompt canned reply otherwise; on two consecutive
failures from a fresh counter the first response has no handover
suggestion and the second one has it. -/
theorem pipeline_failure_escalation
    (ai : String → List GroqMessage → Option ChatResponse)
    (content : String) (now : Int) (st : StoreState)
    (hl : st.session.status ≠ SessionStatus.live)
    (hf : ai content (buildHistory st.session.id st.msgs) = none) :
    ((processMessage ai content now st).1.session.failedAttempts
        = st.session.failedAttempts + 1) ∧
    ((processMessage ai content now st).2
        = if st.session.failedAttempts + 1 ≥ 2 then handoverResponse
          else retryResponse) ∧
    (st.session.failedAttempts = 0 →
      (processMessage ai content now st).2 = retryResponse ∧
      (processMessage ai content now st).2.suggestHandover = false) ∧
    (1 ≤ st.session.failedAttempts →
      (processMessage ai content now st).2 = handoverResponse ∧
      (processMessage ai content now st).2.suggestHandover = true) ∧
    (∀ content2 now2, st.session.failedAttempts = 0 →
      (processMessage aiFail content2 now2
          (processMessage ai content now st).1).2.suggestHandover = true) := by
  have hmain := processMessage_failure ai content now st hl hf
  refine ⟨?_, ?_, ?_, ?_, ?_⟩
  · rw [hmain]
  · rw [hmain]
  · intro h0
    rw [hmain]
    simp [h0, retryResponse]
  · intro h1
    have h2 : st.session.failedAttempts + 1 ≥ 2 := by omega
    rw [hmain]
    simp [h2, handoverResponse]
  · intro content2 now2 h0
    have hl2 : (processMessage ai content now st).1.session.status
        ≠ SessionStatus.live := by
      rw [hmain]
      exact hl
    have hmain2 := processMessage_failure aiFail content2 now2
      (processMessage ai content now st).1 hl2 rfl
    rw [hmain2, hmain]
    simp [h0, handoverResponse]

/-- A store state whose session is fresh (status bot, zero failures). -/
def botSt : StoreState := ⟨sampleSession, [⟨"s1", "visitor", "halo", 1⟩]⟩

/-- Concrete instance of `pipeline_failure_escalation`: first failure
suggests no handover, the second consecutive one does, and the counter is
persisted. -/
theorem pipeline_failure_escalation_wit :
    (processMessage aiFail "q" 2 botSt).2.suggestHandover = false ∧
    (processMessage aiFail "q2" 3 (processMessage aiFail "q" 2 botSt).1).2.suggestHandover
      = true ∧
    (processMessage aiFail "q" 2 botSt).1.session.failedAttempts = 1 :=
  have h := pipeline_failure_escalation aiFail "q" 2 botSt (by decide) rfl
  ⟨(h.2.2.1 rfl).2, h.2.2.2.2 "q2" 3 rfl, h.1⟩

/-- Claim C10: a successful AI call leaves the failure counter (and the
status) unchanged; only returnToBot resets the counter, while the other
transitions preserve it; and once the counter is at least 1, any later AI
failure yields the handover-offer canned reply. -/
theorem pipeline_counter_frame
    (ai : String → List GroqMessage → Option ChatResponse)
    (content : String) (now : Int) (st : StoreState) (r : ChatResponse)
    (adminID adminName : String) :
    (st.session.status ≠ SessionStatus.live →
      ai content (buildHistory st.session.id st.msgs) = some r →
      (processMessage ai content now st).1.session.failedAttempts
          = st.session.failedAttempts ∧
      (processMessage ai content now st).1.session.status = st.session.status) ∧
    ((returnToBot now st).session.failedAttempts = 0) ∧
    ((requestHandover now st).session.failedAttempts = st.session.failedAttempts ∧
     (claimSession adminID adminName now st).session.failedAttempts
        = st.session.failedAttempts ∧
     (closeSession now st).session.failedAttempts = st.session.failedAttempts) ∧
    (st.session.status ≠ SessionStatus.live → 1 ≤ st.session.failedAttempts →
      ai content (buildHistory st.session.id st.msgs) = none →
      (processMessage ai content now st).2 = handoverResponse ∧
      (processMessage ai content now st).2.suggestHandover = true) := by
  refine ⟨?_, ?_, ⟨?_, ?_, ?_⟩, ?_⟩
  · intro hl hs
    rw [processMessage_success ai content now st r hl hs]
    exact ⟨rfl, rfl⟩
  · simp [returnToBot, saveMessage, updateSession]
  · simp [requestHandover, saveMessage, updateSession]
  · simp [claimSession, saveMessage, updateSession]
  · simp [closeSession, updateSession]
  · intro hl h1 hf
    have h2 : st.session.failedAttempts + 1 ≥ 2 := by omega
    rw [processMessage_failure ai content now st hl hf]
    simp [h2, handoverResponse]

/-- The oracle that always succeeds with a fixed positive reply. -/
def aiOk : String → List GroqMessage → Option ChatResponse :=
  fun _ _ => some ⟨"Tentu, bisa saya bantu.", false, "positive"⟩

/-- A store state with one prior AI failure on the counter. -/
def oneFailSt : StoreState :=
  ⟨{ sampleSession with failedAttempts := 1 }, [⟨"s1", "visitor", "halo", 1⟩]⟩

/-- Concrete instance of `pipeline_counter_frame`: a success between
failures does not reset the counter, so the next failure immediately
offers handover. -/
theorem pipeline_counter_frame_wit :
    (processMessage aiOk "lanjut" 4 oneFailSt).1.session.failedAttempts = 1 ∧
    (returnToBot 9 oneFailSt).session.failedAttempts = 0 ∧
    (processMessage aiFail "lagi" 5 (processMessage aiOk "lanjut" 4 oneFailSt).1).2
      = handoverResponse :=
  have h1 := pipeline_counter_frame aiOk "lanjut" 4 oneFailSt
    ⟨"Tentu, bisa saya bantu.", false, "positive"⟩ "a1" "Admin"
  have hsucc := h1.1 (by decide) rfl
  have h2 := pipeline_counter_frame aiFail "lagi" 5
    (processMessage aiOk "lanjut" 4 oneFailSt).1
    ⟨"", false, ""⟩ "a1" "Admin"
  ⟨hsucc.1, h1.2.1,
   (h2.2.2.2 (by rw [hsucc.2]; decide) (by rw [hsucc.1]; decide) rfl).1⟩

/-- The one-directional admin/live invariant that the code does maintain. -/
def adminLiveInv (s : ChatSession) : Prop :=
  s.status = SessionStatus.live → s.assignedAdmin ≠ ""

/-- Side condition on an operation: any claim carries a non-empty admin id. -/
def opClaimAdminNonempty : Op → Prop
  | Op.claimSession adminID _ _ => adminID ≠ ""
  | _ => True

/-- Each single operation preserves `adminLiveInv` when claims carry a
non-empty admin id. -/
lemma applyOp_adminLiveInv (op : Op) (st : StoreState)
    (hop : opClaimAdminNonempty op) (h : adminLiveInv st.session) :
    adminLiveInv (applyOp op st).session := by
  cases op with
  | requestHandover now =>
    intro hlive
    simp [applyOp, requestHandover, saveMessage, updateSession] at hlive
  | claimSession adminID adminName now =>
    intro _
    simpa [applyOp, claimSession, saveMessage, updateSession] using hop
  | closeSession now =>
    intro hlive
    simp [applyOp, closeSession, updateSession] at hlive
  | returnToBot now =>
    intro hlive
    simp [applyOp, returnToBot, saveMessage, updateSession] at hlive
  | processMessage ai content now =>
    by_cases hl : st.session.status = SessionStatus.live
    · simpa [applyOp, processMessage_live ai content now st hl] using h
    · cases hai : ai content (buildHistory st.session.id st.msgs) with
      | none =>
        intro hlive
        rw [show applyOp (Op.processMessage ai content now) st
              = (processMessage ai content now st).1 from rfl,
            processMessage_failure ai content now st hl hai] at hlive ⊢
        exact h hlive
      | some r =>
        intro hlive
        rw [show applyOp (Op.processMessage ai content now) st
              = (processMessage ai content now st).1 from rfl,
            processMessage_success ai content now st r hl hai] at hlive ⊢
        exact h hlive
  | reaperSweep now dur =>
    by_cases hsel : reaperSelects now dur st.session
    · intro hlive
      simp [applyOp, hsel, reaperClose] at hlive
    · simpa [applyOp, hsel] using h

/-- Claim C1 counterexample input: a fresh session. -/
def st0 : StoreState := ⟨sampleSession, []⟩

/-- Claim C1 is false on the code: after createSession, claimSession and
closeSession, the session's assignedAdmin is still non-empty while its
status is closed, not live — CloseSession never clears the assignment. -/
theorem admin_live_iff_cex :
    (run [Op.claimSession "a1" "Admin" 1, Op.closeSession 2] st0).session.assignedAdmin
      ≠ "" ∧
    (run [Op.claimSession "a1" "Admin" 1, Op.closeSession 2] st0).session.status
      ≠ SessionStatus.live := by
  decide

/-- Claim C1 amended: over any sequence of transition operations in which
every claimSession carries a non-empty admin id, the implication
status = live → assignedAdmin non-empty is invariant; the converse fails
because closeSession and requestHandover keep the stale assignment. -/
theorem admin_live_inv_amended (ops : List Op) (st : StoreState)
    (hops : ∀ op ∈ ops, opClaimAdminNonempty op)
    (h : adminLiveInv st.session) :
    adminLiveInv (run ops st).session := by
  induction ops generalizing st with
  | nil => exact h
  | cons op rest ih =>
    exact ih (applyOp op st)
      (fun o ho => hops o (List.mem_cons_of_mem _ ho))
      (applyOp_adminLiveInv op st (hops op (List.mem_cons_self _ _)) h)

/-- Concrete instance of `admin_live_inv_amended` on a claim-then-close
trace from a fresh session. -/
theorem admin_live_inv_amended_wit :
    adminLiveInv (run [Op.claimSession "a1" "Admin" 1, Op.closeSession 2] st0).session :=
  admin_live_inv_amended [Op.claimSession "a1" "Admin" 1, Op.closeSession 2] st0
    (by
      intro op hop
      simp only [List.mem_cons, List.not_mem_nil, or_false] at hop
      rcases hop with rfl | rfl
      · show ("a1" : String) ≠ ""
        decide
      · trivial)
    (by intro hlive; exact absurd hlive (by decide))

/-- Claim C2 is false on the code: a closed session is moved back to
queued by RequestHandover, which never checks the current status. -/
theorem closed_terminal_cex :
    (run [Op.closeSession 3] st0).session.status = SessionStatus.closed ∧
    (run [Op.closeSession 3, Op.requestHandover 4] st0).session.status
      ≠ SessionStatus.closed := by
  decide

/-- Claim C2 amended: for a closed session, processMessage never changes
the status, the reaper sweep leaves the whole state untouched, and a
further closeSession keeps it closed; but requestHandover, claimSession
and returnToBot do not guard on the status and move the closed session to
queued, live and bot respectively. -/
theorem closed_terminal_amended (st : StoreState)
    (h : st.session.status = SessionStatus.closed) :
    (∀ ai content now,
      (processMessage ai content now st).1.session.status = SessionStatus.closed) ∧
    (∀ now dur, applyOp (Op.reaperSweep now dur) st = st) ∧
    (∀ now, (closeSession now st).session.status = SessionStatus.closed) ∧
    (∀ now, (requestHandover now st).session.status = SessionStatus.queued) ∧
    (∀ adminID adminName now,
      (claimSession adminID adminName now st).session.status = SessionStatus.live) ∧
    (∀ now, (returnToBot now st).session.status = SessionStatus.bot) := by
  refine ⟨?_, ?_, ?_, ?_, ?_, ?_⟩
  · intro ai content now
    have hl : st.session.status ≠ SessionStatus.live := by rw [h]; decide
    cases hai : ai content (buildHistory st.session.id st.msgs) with
    | none => rw [processMessage_failure ai content now st hl hai]; exact h
    | some r => rw [processMessage_success ai content now st r hl hai]; exact h
  · intro now dur
    have hsel : reaperSelects now dur st.session = false := by
      simp [reaperSelects, h]
    simp [applyOp, hsel]
  · intro now
    simp [closeSession, updateSession]
  · intro now
    simp [requestHandover, saveMessage, updateSession]
  · intro adminID adminName now
    simp [claimSession, saveMessage, updateSession]
  · intro now
    simp [returnToBot, saveMessage, updateSession]

/-- Concrete instance of `closed_terminal_amended` on a freshly closed
session. -/
theorem closed_terminal_amended_wit :
    (processMessage aiFail "halo lagi" 5 (run [Op.closeSession 3] st0)).1.session.status
      = SessionStatus.closed ∧
    applyOp (Op.reaperSweep 1000 10) (run [Op.closeSession 3] st0)
      = run [Op.closeSession 3] st0 :=
  have h := closed_terminal_amended (run [Op.closeSession 3] st0) (by decide)
  ⟨h.1 aiFail "halo lagi" 5, h.2.1 1000 10⟩

/-- The last `n` elements of a list. -/
def lastN (n : Nat) (l : List α) : List α := l.drop (l.length - n)

/-- The history described by the spec sentence, for comparison with the
code: the LAST up-to-20 messages of the session in chronological order,
system messages excluded, role-tagged the same way. -/
def buildHistoryFromLast (sid : String) (store : List ChatMessage) : List GroqMessage :=
  toHistory (lastN 20 (sortByTs (store.filter (fun m => m.sessionId == sid))))

/-- A session with 21 visitor messages, the newest one distinguished. -/
def manyMsgs : List ChatMessage :=
  (List.range 21).map
    (fun i => ⟨"s1", "visitor", if i = 20 then "terbaru" else "lama", (i : Int)⟩)

/-- Claim C3 is false on the code: the store query orders ascending and
then applies the limit, so with 21 messages the built history keeps the 20
OLDEST ones and drops the newest, unlike the spec's last-20 history. -/
theorem history_window_cex :
    GroqMessage.mk "user" "terbaru" ∈ buildHistoryFromLast "s1" manyMsgs ∧
    GroqMessage.mk "user" "terbaru" ∉ buildHistory "s1" manyMsgs ∧
    buildHistory "s1" manyMsgs ≠ buildHistoryFromLast "s1" manyMsgs := by
  decide

/-- The history loop equals filtering out system messages and role-tagging. -/
lemma toHistory_eq_filterMap (l : List ChatMessage) :
    toHistory l = (l.filter (fun m => !(m.sender == "system"))).map
      (fun m => ⟨roleOf m.sender, m.content⟩) := by
  induction l with
  | nil => rfl
  | cons m rest ih =>
    by_cases h : m.sender = "system"
    · simp [toHistory, h, List.filter_cons, ih]
    · simp [toHistory, h, List.filter_cons, ih]

/-- Claim C3 amended: the pipeline builds the AI history from the first
(oldest) up-to-20 messages of the session in chronological order,
excluding system messages, mapping bot and admin senders to the assistant
role and all other senders to the user role; the history never exceeds 20
entries. -/
theorem history_window_amended (sid : String) (store : List ChatMessage) :
    buildHistory sid store =
      (((sortByTs (store.filter (fun m => m.sessionId == sid))).take 20).filter
        (fun m => !(m.sender == "system"))).map
        (fun m => ⟨roleOf m.sender, m.content⟩) ∧
    (buildHistory sid store).length ≤ 20 := by
  have heq := toHistory_eq_filterMap
    ((sortByTs (store.filter (fun m => m.sessionId == sid))).take 20)
  refine ⟨heq, ?_⟩
  rw [show buildHistory sid store
        = toHistory ((sortByTs (store.filter (fun m => m.sessionId == sid))).take 20)
      from rfl, heq, List.length_map]
  exact le_trans (List.length_filter_le _ _) (List.length_take_le 20 _)

/-- Characterisation of the reaper sweep as a map over the collection plus
the appended system messages of the selected sessions, in order. -/
lemma cleanup_eq (now dur : Int) (sessions : List ChatSession)
    (msgs : List ChatMessage) :
    cleanupInactiveSessions now dur sessions msgs =
      (sessions.map (fun s => if reaperSelects now dur s then reaperClose now s else s),
       msgs ++ (sessions.filter (reaperSelects now dur)).map
         (fun s => reaperSysMsg s.id now)) := by
  induction sessions generalizing msgs with
  | nil => simp [cleanupInactiveSessions]
  | cons s rest ih =>
    by_cases h : reaperSelects now dur s
    · simp [cleanupInactiveSessions, h, ih, List.filter_cons]
    · simp [cleanupInactiveSessions, h, ih, List.filter_cons]

/-- Claim C8: the reaper closes exactly the overdue active sessions: the
collection is mapped by close-if-selected and the appended system messages
are exactly those of the selected sessions in order; every active session
whose last message is strictly older than now minus the cutoff gets its
system message appended; a session last touched within the cutoff is left
unchanged; and the closing update stamps status closed, overwrites the
sentiment with timeout and sets closedAt to the sweep time. -/
theorem reaper_spec (now dur : Int) (sessions : List ChatSession)
    (msgs : List ChatMessage) :
    ((cleanupInactiveSessions now dur sessions msgs).1 =
      sessions.map
        (fun s => if reaperSelects now dur s then reaperClose now s else s)) ∧
    ((cleanupInactiveSessions now dur sessions msgs).2 =
      msgs ++ (sessions.filter (reaperSelects now dur)).map
        (fun s => reaperSysMsg s.id now)) ∧
    (∀ s ∈ sessions,
      (s.status = SessionStatus.bot ∨ s.status = SessionStatus.queued ∨
        s.status = SessionStatus.live) →
      s.lastMessageAt < now - dur →
      reaperSelects now dur s = true ∧
      reaperSysMsg s.id now ∈ (cleanupInactiveSessions now dur sessions msgs).2) ∧
    (∀ s, ¬ s.lastMessageAt < now - dur →
      (if reaperSelects now dur s then reaperClose now s else s) = s) ∧
    (∀ s, (reaperClose now s).status = SessionStatus.closed ∧
      (reaperClose now s).sentiment = "timeout" ∧
      (reaperClose now s).closedAt = some now) := by
  have hmain := cleanup_eq now dur sessions msgs
  refine ⟨by rw [hmain], by rw [hmain], ?_, ?_, ?_⟩
  · intro s hs hstatus hold
    have hsel : reaperSelects now dur s = true := by
      rcases hstatus with h | h | h <;> simp [reaperSelects, h, hold]
    refine ⟨hsel, ?_⟩
    rw [hmain]
    refine List.mem_append_right _ (List.mem_map.mpr ⟨s, ?_, rfl⟩)
    exact List.mem_filter.mpr ⟨hs, hsel⟩
  · intro s hold
    have hsel : reaperSelects now dur s = false := by
      simp [reaperSelects, hold]
    simp [hsel]
  · intro s
    exact ⟨rfl, rfl, rfl⟩

/-- A stale session (last message at time 0). -/
def staleSession : ChatSession := { sampleSession with id := "sOld" }

/-- A session touched recently (at cutoff minus epsilon before the sweep). -/
def freshSession : ChatSession :=
  { sampleSession with id := "sNew", lastMessageAt := 99 }

/-- Concrete instance of `reaper_spec`: a sweep at time 101 with cutoff
100 closes the session last touched at 0 with sentiment timeout and its
system message, and leaves the session touched at 99 unchanged. -/
theorem reaper_spec_wit :
    (cleanupInactiveSessions 101 100 [staleSession, freshSession] []).1 =
      [reaperClose 101 staleSession, freshSession] ∧
    (cleanupInactiveSessions 101 100 [staleSession, freshSession] []).2 =
      [reaperSysMsg "sOld" 101] ∧
    (reaperClose 101 staleSession).sentiment = "timeout" ∧
    (reaperClose 101 staleSession).status = SessionStatus.closed :=
  have h := reaper_spec 101 100 [staleSession, freshSession] []
  ⟨h.1.trans (by decide), h.2.1.trans (by decide),
   (h.2.2.2.2 staleSession).2.1, (h.2.2.2.2 staleSession).1⟩

/-- Claim C9: reporting offline removes the agent's entry (afterwards no
entry with that id exists) and is a no-op when no entry exists; reporting
a non-offline state for a previously unknown agent creates a new entry
with capacity ceiling 5; and reporting online then offline for the same
agent from an empty registry leaves isAnyAdminOnline false. -/
theorem presence_registry_spec (reg : List AdminStatus)
    (adminID adminName status : String) (now : Int) :
    ((reg.find? (fun a => a.adminId == adminID)) = none →
      updateAdminStatus reg adminID adminName "offline" now = reg) ∧
    ((updateAdminStatus reg adminID adminName "offline" now).find?
      (fun a => a.adminId == adminID) = none) ∧
    (status ≠ "offline" →
      (reg.find? (fun a => a.adminId == adminID)) = none →
      updateAdminStatus reg adminID adminName status now =
        reg ++ [⟨adminID, adminName, status, 0, 5, now⟩]) ∧
    (∀ id2 name1 name2 t1 t2, isAnyAdminOnline
        (updateAdminStatus (updateAdminStatus [] id2 name1 "online" t1)
          id2 name2 "offline" t2) = false) := by
  refine ⟨?_, ?_, ?_, ?_⟩
  · intro hnone
    rw [show updateAdminStatus reg adminID adminName "offline" now
          = reg.filter (fun a => !(a.adminId == adminID)) from rfl]
    apply List.filter_eq_self.mpr
    intro a ha
    have := List.find?_eq_none.mp hnone a ha
    simpa using this
  · rw [show updateAdminStatus reg adminID adminName "offline" now
          = reg.filter (fun a => !(a.adminId == adminID)) from rfl]
    apply List.find?_eq_none.mpr
    intro a ha
    have := (List.mem_filter.mp ha).2
    simpa using this
  · intro hstatus hnone
    rw [updateAdminStatus, if_neg hstatus, hnone]
    simp
  · intro id2 name1 name2 t1 t2
    have h1 : updateAdminStatus [] id2 name1 "online" t1 = [⟨id2, name1, "online", 0, 5, t1⟩] := by
      rw [updateAdminStatus]
      simp
    rw [h1, show updateAdminStatus [⟨id2, name1, "online", 0, 5, t1⟩] id2 name2 "offline" t2
          = [(⟨id2, name1, "online", 0, 5, t1⟩ : AdminStatus)].filter
              (fun a => !(a.adminId == id2)) from rfl]
    simp [isAnyAdminOnline]

/-- Concrete instance of `presence_registry_spec`. -/
theorem presence_registry_spec_wit :
    updateAdminStatus [] "a9" "Agent" "offline" 7 = [] ∧
    updateAdminStatus [] "a1" "Agent" "away" 7 = [⟨"a1", "Agent", "away", 0, 5, 7⟩] ∧
    isAnyAdminOnline
      (updateAdminStatus (updateAdminStatus [] "a1" "Agent" "online" 1)
        "a1" "Agent" "offline" 2) = false :=
  have h := presence_registry_spec [] "a9" "Agent" "away" 7
  have h2 := presence_registry_spec [] "a1" "Agent" "away" 7
  ⟨h.1 rfl,
   h2.2.2.1 (by decide) rfl,
   h2.2.2.2 "a1" "Agent" "Agent" 1 2⟩

end ServerGo
